import Mathlib

/-!
CORS middleware of `lembrancas-api`

A shallow embedding of `internal/middleware/cors.go` (function `CORS`) together with the
part of the Go standard library it talks to: the process environment (`os.Getenv`), the
header map (`http.Header`) and the response writer (`http.ResponseWriter`).

The handler closure built by `CORS` is stateful Go code; here it is a function on an
explicit `World` (environment, response writer, and a ghost trace of the primitive
operations the middleware performs). Go byte strings (method, header values, environment
values, body) are represented by `String`; the middleware only compares and copies them.
-/

namespace Lembrancas

/-! ## Standard-library interface used by the middleware -/

/-- Header map, Go's `http.Header = map[string][]string`. An absent key is `none`. -/
abbrev Header := String → Option (List String)

/-- The empty header map. -/
def Header.empty : Header := fun _ => none

/-- Go's `Header.Set(key, value)`: the entry of `key` becomes the single value `value`,
replacing whatever was there. (Go first canonicalises `key`; the keys the middleware uses
are already in canonical MIME form, on which canonicalisation is the identity.) -/
def Header.Set (h : Header) (key value : String) : Header :=
  fun k => if k = key then some [value] else h k

/-- Go's `Header.Add(key, value)`: appends `value` to the values of `key`. -/
def Header.Add (h : Header) (key value : String) : Header :=
  fun k => if k = key then some ((h k).getD [] ++ [value]) else h k

/-- Go's `Header.Del(key)`. -/
def Header.Del (h : Header) (key : String) : Header :=
  fun k => if k = key then none else h k

/-- Go's `Header.Get(key)`: first value of `key`, or the empty string. -/
def Header.Get (h : Header) (key : String) : String :=
  match h key with
  | some (v :: _) => v
  | _ => ""

/-- Process environment: `os.LookupEnv`. -/
abbrev Env := String → Option String

/-- The part of `*http.Request` a handler can look at. -/
structure Request where
  Method : String
  URL : String
  Header : Lembrancas.Header
  Body : String

/-- State behind an `http.ResponseWriter`, after `net/http` and `httptest.ResponseRecorder`:
the live header map returned by `Header()`, whether the status line has gone out, the
status that went out, the header map as it was at that moment, and the body bytes. -/
structure ResponseWriter where
  header : Header
  wroteHeader : Bool
  status : Nat
  snapHeader : Header
  body : String

/-- A response writer as the server hands it to the outermost handler. -/
def ResponseWriter.fresh : ResponseWriter :=
  { header := Header.empty, wroteHeader := false, status := 200,
    snapHeader := Header.empty, body := "" }

/-- Go's `w.WriteHeader(code)` for a final status code: the first call fixes the status
and freezes the headers; later calls are ignored. (Go panics on a code outside 100..999;
the middleware only ever passes 204.) -/
def ResponseWriter.WriteHeader (w : ResponseWriter) (code : Nat) : ResponseWriter :=
  if w.wroteHeader then w
  else { w with wroteHeader := true, status := code, snapHeader := w.header }

/-- Go's `w.Write(b)`: an implicit `WriteHeader(200)` if nothing was written yet, then the
bytes are appended to the body. -/
def ResponseWriter.Write (w : ResponseWriter) (b : String) : ResponseWriter :=
  let w1 := w.WriteHeader 200
  { w1 with body := w1.body ++ b }

/-- The response a client receives once the handler has returned. -/
structure Response where
  StatusCode : Nat
  Header : Lembrancas.Header
  Body : String

/-- The response that results from a writer state: status and headers as frozen by the
first write, or `200` with the live headers if the handler never wrote. -/
def ResponseWriter.Result (w : ResponseWriter) : Response :=
  if w.wroteHeader then { StatusCode := w.status, Header := w.snapHeader, Body := w.body }
  else { StatusCode := 200, Header := w.header, Body := w.body }

/-- Ghost record of one primitive step: what the middleware itself does, and each hand-over
to the downstream handler. -/
inductive Event where
  | getenv (key : String)
  | headerSet (key value : String)
  | writeHeader (code : Nat)
  | serve (r : Request)

/-- Everything a handler invocation can touch. `trace` is ghost state. -/
structure World where
  env : Env
  w : ResponseWriter
  trace : List Event

/-- Go's `http.Handler`: `ServeHTTP(w, r)` run in a world. -/
abbrev Handler := World → Request → World

/-- Go's `os.Getenv(key)`: the value, or the empty string when the variable is unset. -/
def World.Getenv (c : World) (key : String) : String × World :=
  ((c.env key).getD "", { c with trace := c.trace ++ [Event.getenv key] })

/-- Go's `w.Header().Set(key, value)`. -/
def World.HeaderSet (c : World) (key value : String) : World :=
  { c with w := { c.w with header := Header.Set c.w.header key value },
           trace := c.trace ++ [Event.headerSet key value] }

/-- Go's `w.WriteHeader(code)`. -/
def World.WriteHeader (c : World) (code : Nat) : World :=
  { c with w := c.w.WriteHeader code, trace := c.trace ++ [Event.writeHeader code] }

/-- Go's `http.MethodOptions`. -/
def MethodOptions : String := "OPTIONS"

/-- Go's `http.StatusNoContent`. -/
def StatusNoContent : Nat := 204

/-! ## The middleware -/

/-- The function `CORS` of `cors.go`: the handler it returns, run on world `c` and
request `r`. -/
def CORS (next : Handler) : Handler := fun c r =>
  -- Get allowed origin from environment or use default
  let (allowedOrigin, c) := c.Getenv "CORS_ORIGIN"
  let allowedOrigin := if allowedOrigin = "" then "http://localhost:8081" else allowedOrigin
  -- Set CORS headers
  let c := c.HeaderSet "Access-Control-Allow-Origin" allowedOrigin
  let c := c.HeaderSet "Access-Control-Allow-Methods" "GET, POST, PUT, DELETE, OPTIONS"
  let c := c.HeaderSet "Access-Control-Allow-Headers" "Content-Type"
  let c := c.HeaderSet "Access-Control-Allow-Credentials" "true"
  -- Handle preflight requests
  if r.Method = MethodOptions then
    c.WriteHeader StatusNoContent
  else
    -- Continue with the next handler
    next c r

/-! ## Downstream handlers -/

/-- An arbitrary downstream handler: its body `h` may read and change the environment and
the response writer in any way; each invocation is recorded in the ghost trace. -/
def downstream (h : Env → ResponseWriter → Request → Env × ResponseWriter) : Handler :=
  fun c r =>
    let out := h c.env c.w r
    { env := out.1, w := out.2, trace := c.trace ++ [Event.serve r] }

/-- Number of hand-overs to the downstream handler recorded in a trace. -/
def invocations : List Event → Nat
  | [] => 0
  | Event.serve _ :: es => invocations es + 1
  | _ :: es => invocations es

/-- Number of reads of environment variable `key` recorded in a trace. -/
def envReads (key : String) : List Event → Nat
  | [] => 0
  | Event.getenv k :: es => (if k = key then 1 else 0) + envReads key es
  | _ :: es => envReads key es

/-! ## Vocabulary of the specification -/

/-- The default origin of the specification (§4.1 step 1). -/
def defaultOrigin : String := "http://localhost:8081"

/-- The resolved origin in the specification's words (§4.1 step 1): the value of
configuration variable `CORS_ORIGIN`, or the default when it is absent or empty. -/
def specOrigin (env : Env) : String :=
  match env "CORS_ORIGIN" with
  | none => defaultOrigin
  | some s => if s = "" then defaultOrigin else s

/-- Names of the four response headers of §6. -/
def corsHeaderNames : List String :=
  ["Access-Control-Allow-Origin", "Access-Control-Allow-Methods",
   "Access-Control-Allow-Headers", "Access-Control-Allow-Credentials"]

/-- A header map holds, for each of the four headers of §6, exactly one value: origin `o`
and the three fixed literals. -/
def carriesCORS (hd : Header) (o : String) : Prop :=
  hd "Access-Control-Allow-Origin" = some [o] ∧
  hd "Access-Control-Allow-Methods" = some ["GET, POST, PUT, DELETE, OPTIONS"] ∧
  hd "Access-Control-Allow-Headers" = some ["Content-Type"] ∧
  hd "Access-Control-Allow-Credentials" = some ["true"]

instance (hd : Header) (o : String) : Decidable (carriesCORS hd o) := by
  unfold carriesCORS
  infer_instance

/-- A response writer with the four headers of §6 set for origin `o` (§4.1 step 2) and
nothing else touched. -/
def withCORSHeaders (w : ResponseWriter) (o : String) : ResponseWriter :=
  let h1 := Header.Set w.header "Access-Control-Allow-Origin" o
  let h2 := Header.Set h1 "Access-Control-Allow-Methods" "GET, POST, PUT, DELETE, OPTIONS"
  let h3 := Header.Set h2 "Access-Control-Allow-Headers" "Content-Type"
  let h4 := Header.Set h3 "Access-Control-Allow-Credentials" "true"
  { w with header := h4 }

/-- The primitive steps of §4.1 steps 1 and 2 for origin `o`: one read of `CORS_ORIGIN`,
then the four header writes. -/
def corsEvents (o : String) : List Event :=
  [Event.getenv "CORS_ORIGIN",
   Event.headerSet "Access-Control-Allow-Origin" o,
   Event.headerSet "Access-Control-Allow-Methods" "GET, POST, PUT, DELETE, OPTIONS",
   Event.headerSet "Access-Control-Allow-Headers" "Content-Type",
   Event.headerSet "Access-Control-Allow-Credentials" "true"]

/-- The world at the moment the middleware reaches its method test, according to §4.1
steps 1 and 2. -/
def atBranch (c : World) : World :=
  { env := c.env,
    w := withCORSHeaders c.w (specOrigin c.env),
    trace := c.trace ++ corsEvents (specOrigin c.env) }

/-- The last step of the middleware for request `r` (§4.1 steps 3 and 4): its own
`WriteHeader(204)` or the hand-over of `r`. -/
def outcome (r : Request) : Event :=
  if r.Method = "OPTIONS" then Event.writeHeader 204 else Event.serve r

/-- Two responses agree on status, body and every header other than the four of §6. -/
def Response.agreeOffCORS (a b : Response) : Prop :=
  a.StatusCode = b.StatusCode ∧ a.Body = b.Body ∧
  ∀ k, k ∉ corsHeaderNames → a.Header k = b.Header k

/-! ## Sample inputs -/

/-- A world with `CORS_ORIGIN` unset and an untouched response writer. -/
def worldUnset : World :=
  { env := fun _ => none, w := ResponseWriter.fresh, trace := [] }

/-- A world whose only environment variable is `CORS_ORIGIN = v`. -/
def worldWith (v : String) : World :=
  { env := fun k => if k = "CORS_ORIGIN" then some v else none,
    w := ResponseWriter.fresh, trace := [] }

/-- Request `OPTIONS /anything`. -/
def optionsAnything : Request :=
  { Method := "OPTIONS", URL := "/anything", Header := Header.empty, Body := "" }

/-- Request `GET /items`. -/
def getItems : Request :=
  { Method := "GET", URL := "/items", Header := Header.empty, Body := "" }

/-- A request `method url` carrying an `Origin` header and a body. -/
def crossOrigin (method url origin body : String) : Request :=
  { Method := method, URL := url,
    Header := Header.Set Header.empty "Origin" origin, Body := body }

/-- Handler body `w.Write([]byte("ok"))`. -/
def writeOk : Env → ResponseWriter → Request → Env × ResponseWriter :=
  fun e w _ => (e, w.Write "ok")

/-- Handler body `w.Write([]byte(w.Header().Get("Access-Control-Allow-Origin")))`. -/
def echoOrigin : Env → ResponseWriter → Request → Env × ResponseWriter :=
  fun e w _ => (e, w.Write (Header.Get w.header "Access-Control-Allow-Origin"))

/-- Handler body `w.Header().Set("Access-Control-Allow-Origin", "*")`. -/
def allowAll : Env → ResponseWriter → Request → Env × ResponseWriter :=
  fun e w _ => (e, { w with header := Header.Set w.header "Access-Control-Allow-Origin" "*" })

/-! ## Basic facts -/

theorem specOrigin_eq_source (env : Env) :
    (if (env "CORS_ORIGIN").getD "" = "" then "http://localhost:8081"
      else (env "CORS_ORIGIN").getD "") = specOrigin env := by
  unfold specOrigin defaultOrigin
  cases env "CORS_ORIGIN" <;> simp

/-- The closure of `CORS` brings the world to `atBranch c` and then either writes 204 or
runs `next` there. -/
theorem CORS_run (next : Handler) (c : World) (r : Request) :
    CORS next c r =
      if r.Method = "OPTIONS" then World.WriteHeader (atBranch c) 204
      else next (atBranch c) r := by
  simp only [CORS, World.Getenv, World.HeaderSet, MethodOptions, StatusNoContent,
    specOrigin_eq_source, atBranch, withCORSHeaders, corsEvents, List.append_assoc,
    List.singleton_append, List.cons_append, List.nil_append]

theorem carriesCORS_withCORSHeaders (w : ResponseWriter) (o : String) :
    carriesCORS (withCORSHeaders w o).header o := by
  refine ⟨?_, ?_, ?_, ?_⟩ <;> simp [withCORSHeaders, Header.Set]

theorem withCORSHeaders_header_off (w : ResponseWriter) (o k : String)
    (hk : k ∉ corsHeaderNames) : (withCORSHeaders w o).header k = w.header k := by
  simp only [corsHeaderNames, List.mem_cons, List.mem_singleton, List.not_mem_nil,
    or_false, not_or] at hk
  simp [withCORSHeaders, Header.Set, hk.1, hk.2.1, hk.2.2.1, hk.2.2.2]

theorem withCORSHeaders_idem (w : ResponseWriter) (o : String) :
    withCORSHeaders (withCORSHeaders w o) o = withCORSHeaders w o := by
  have hh : (withCORSHeaders (withCORSHeaders w o) o).header = (withCORSHeaders w o).header := by
    funext k
    simp only [withCORSHeaders, Header.Set]
    split_ifs <;> rfl
  simpa [withCORSHeaders] using hh

theorem invocations_append (xs ys : List Event) :
    invocations (xs ++ ys) = invocations xs + invocations ys := by
  induction xs with
  | nil => simp [invocations]
  | cons e es ih =>
    cases e <;> simp [invocations, ih]
    omega

theorem envReads_append (key : String) (xs ys : List Event) :
    envReads key (xs ++ ys) = envReads key xs + envReads key ys := by
  induction xs with
  | nil => simp [envReads]
  | cons e es ih =>
    cases e <;> simp [envReads, ih]
    omega

theorem CORS_downstream_trace (h : Env → ResponseWriter → Request → Env × ResponseWriter)
    (c : World) (r : Request) :
    (CORS (downstream h) c r).trace
      = c.trace ++ corsEvents (specOrigin c.env) ++ [outcome r] := by
  rw [CORS_run]
  by_cases hm : r.Method = "OPTIONS" <;>
    simp [hm, outcome, World.WriteHeader, downstream, atBranch]

theorem CORS_downstream_w (h : Env → ResponseWriter → Request → Env × ResponseWriter)
    (c : World) (r : Request) :
    (CORS (downstream h) c r).w
      = if r.Method = "OPTIONS"
        then (withCORSHeaders c.w (specOrigin c.env)).WriteHeader 204
        else (h c.env (withCORSHeaders c.w (specOrigin c.env)) r).2 := by
  rw [CORS_run]
  by_cases hm : r.Method = "OPTIONS" <;>
    simp [hm, World.WriteHeader, downstream, atBranch]

theorem specOrigin_of_unset (env : Env)
    (he : env "CORS_ORIGIN" = none ∨ env "CORS_ORIGIN" = some "") :
    specOrigin env = "http://localhost:8081" := by
  rcases he with he | he <;> simp [specOrigin, defaultOrigin, he]

theorem specOrigin_of_set (env : Env) (S : String) (hS : S ≠ "")
    (he : env "CORS_ORIGIN" = some S) : specOrigin env = S := by
  simp [specOrigin, he, hS]

theorem invocations_corsEvents (o : String) : invocations (corsEvents o) = 0 := rfl

theorem envReads_corsEvents (o : String) : envReads "CORS_ORIGIN" (corsEvents o) = 1 := by
  simp [corsEvents, envReads]

theorem Result_WriteHeader_of_fresh (w : ResponseWriter) (code : Nat)
    (hw : w.wroteHeader = false) :
    (w.WriteHeader code).Result
      = { StatusCode := code, Header := w.header, Body := w.body } := by
  simp [ResponseWriter.WriteHeader, ResponseWriter.Result, hw]

theorem Result_preflight (w : ResponseWriter) (o : String) (hw : w.wroteHeader = false) :
    ((withCORSHeaders w o).WriteHeader 204).Result
      = { StatusCode := 204, Header := (withCORSHeaders w o).header, Body := w.body } :=
  Result_WriteHeader_of_fresh (withCORSHeaders w o) 204 hw

/-! ## The claims -/

/-- C1: for every downstream handler, every environment and every request whose method is
exactly "OPTIONS", the handler built by `CORS` ends with `WriteHeader(204)`, so that a
response on which nothing was written before has status 204; it adds no byte to the body,
and it never hands the request to the downstream handler: the run does not depend on the
handler and records no hand-over. -/
theorem CORS_preflight (next : Handler) (c : World) (r : Request)
    (hm : r.Method = "OPTIONS") (hw : c.w.wroteHeader = false) :
    (CORS next c r).w.Result.StatusCode = 204 ∧
    (CORS next c r).w.Result.Body = c.w.body ∧
    (CORS next c r).trace
      = c.trace ++ corsEvents (specOrigin c.env) ++ [Event.writeHeader 204] ∧
    invocations (CORS next c r).trace = invocations c.trace ∧
    ∀ other : Handler, CORS other c r = CORS next c r := by
  have hrun : ∀ n : Handler, CORS n c r = World.WriteHeader (atBranch c) 204 := by
    intro n; rw [CORS_run, if_pos hm]
  have hw2 : (atBranch c).w.wroteHeader = false := hw
  refine ⟨?_, ?_, ?_, ?_, ?_⟩
  · rw [hrun]
    show ((atBranch c).w.WriteHeader 204).Result.StatusCode = 204
    rw [Result_WriteHeader_of_fresh _ _ hw2]
  · rw [hrun]
    show ((atBranch c).w.WriteHeader 204).Result.Body = c.w.body
    rw [Result_WriteHeader_of_fresh _ _ hw2]
    rfl
  · rw [hrun]
    simp [World.WriteHeader, atBranch]
  · rw [hrun]
    simp [World.WriteHeader, atBranch, invocations_append, invocations_corsEvents,
      invocations]
  · intro other
    rw [hrun, hrun]

/-- C1 at `OPTIONS /anything` with `CORS_ORIGIN` unset and an untouched response. -/
theorem CORS_preflight_witness :
    optionsAnything.Method = "OPTIONS" ∧ worldUnset.w.wroteHeader = false ∧
    (CORS (downstream writeOk) worldUnset optionsAnything).w.Result.StatusCode = 204 ∧
    (CORS (downstream writeOk) worldUnset optionsAnything).w.Result.Body = "" ∧
    invocations (CORS (downstream writeOk) worldUnset optionsAnything).trace = 0 :=
  have h := CORS_preflight (downstream writeOk) worldUnset optionsAnything rfl rfl
  ⟨rfl, rfl, h.1, h.2.1, h.2.2.2.1⟩

/-- C2 as stated fails: with `CORS_ORIGIN` unset and request `GET /items`, a downstream
handler that writes the current value of the response header `Access-Control-Allow-Origin`
to the body produces body `http://localhost:8081` behind the middleware and the empty body
on its own, so the two responses do not agree on the body. -/
theorem CORS_not_transparent_for_echoOrigin :
    ¬ (∀ (h : Env → ResponseWriter → Request → Env × ResponseWriter) (c : World)
        (r : Request), r.Method ≠ "OPTIONS" →
        Response.agreeOffCORS (CORS (downstream h) c r).w.Result
          (downstream h c r).w.Result) := by
  intro hall
  have hb := (hall echoOrigin worldUnset getItems (by decide)).2.1
  exact absurd hb (by decide)

/-- C2, amended: for every downstream handler H and every request R whose method is not
"OPTIONS", the handler built by `CORS` hands R, unmodified, to H exactly once, and the
final response writer and environment are exactly what H produces when it is started on
the initial response state with the four headers set; the middleware itself writes no
status and no body, and touches no header other than those four. -/
theorem CORS_delegates_once (h : Env → ResponseWriter → Request → Env × ResponseWriter)
    (c : World) (r : Request) (hm : r.Method ≠ "OPTIONS") :
    (CORS (downstream h) c r).w = (h c.env (withCORSHeaders c.w (specOrigin c.env)) r).2 ∧
    (CORS (downstream h) c r).env = (h c.env (withCORSHeaders c.w (specOrigin c.env)) r).1 ∧
    (CORS (downstream h) c r).trace
      = c.trace ++ corsEvents (specOrigin c.env) ++ [Event.serve r] ∧
    invocations (CORS (downstream h) c r).trace = invocations c.trace + 1 ∧
    (withCORSHeaders c.w (specOrigin c.env)).wroteHeader = c.w.wroteHeader ∧
    (withCORSHeaders c.w (specOrigin c.env)).status = c.w.status ∧
    (withCORSHeaders c.w (specOrigin c.env)).snapHeader = c.w.snapHeader ∧
    (withCORSHeaders c.w (specOrigin c.env)).body = c.w.body ∧
    ∀ k, k ∉ corsHeaderNames →
      (withCORSHeaders c.w (specOrigin c.env)).header k = c.w.header k := by
  have ht := CORS_downstream_trace h c r
  simp only [outcome, if_neg hm] at ht
  refine ⟨?_, ?_, ht, ?_, rfl, rfl, rfl, rfl, ?_⟩
  · rw [CORS_downstream_w, if_neg hm]
  · rw [CORS_run, if_neg hm]; rfl
  · rw [ht]
    simp [invocations_append, invocations_corsEvents, invocations]
  · intro k hk
    exact withCORSHeaders_header_off _ _ k hk

/-- C2 (amended) at `GET /items` with the header-echoing handler. -/
theorem CORS_delegates_once_witness :
    getItems.Method ≠ "OPTIONS" ∧
    (CORS (downstream echoOrigin) worldUnset getItems).w
      = (echoOrigin worldUnset.env
          (withCORSHeaders worldUnset.w (specOrigin worldUnset.env)) getItems).2 ∧
    invocations (CORS (downstream echoOrigin) worldUnset getItems).trace = 1 :=
  have h := CORS_delegates_once echoOrigin worldUnset getItems (by decide)
  ⟨by decide, h.1, h.2.2.2.1⟩

/-- C3 as stated fails: with `CORS_ORIGIN=https://example.com` and request `GET /items`, a
downstream handler that sets `Access-Control-Allow-Origin` to `*` leaves the response with
that value, not with the resolved origin. -/
theorem CORS_origin_overridden_by_allowAll :
    ¬ (∀ (h : Env → ResponseWriter → Request → Env × ResponseWriter) (c : World)
        (r : Request),
        carriesCORS (CORS (downstream h) c r).w.Result.Header (specOrigin c.env)) := by
  intro hall
  have ho := (hall allowAll (worldWith "https://example.com") getItems).1
  exact absurd ho (by decide)

/-- C3, amended: for every request, every downstream handler H and every value of
`CORS_ORIGIN`, all four headers hold their exact values (the resolved origin and three
literals that are the same for every environment) in the response header map at the
moment the middleware writes 204 or hands over to H; the response to an "OPTIONS" request
on a writer not yet written to carries them, and the response to any other request
carries them whenever the response H produces keeps those four entries as H found
them. -/
theorem CORS_headers_carried (h : Env → ResponseWriter → Request → Env × ResponseWriter)
    (c : World) (r : Request) (hw : c.w.wroteHeader = false) :
    (∀ next : Handler, CORS next c r =
      if r.Method = "OPTIONS" then World.WriteHeader (atBranch c) 204
      else next (atBranch c) r) ∧
    carriesCORS (atBranch c).w.header (specOrigin c.env) ∧
    (∀ c2 : World, ∀ k, k ∈ corsHeaderNames.tail →
      (atBranch c).w.header k = (atBranch c2).w.header k) ∧
    (r.Method = "OPTIONS" →
      carriesCORS (CORS (downstream h) c r).w.Result.Header (specOrigin c.env)) ∧
    (r.Method ≠ "OPTIONS" →
      (∀ k, k ∈ corsHeaderNames →
        (h c.env (atBranch c).w r).2.Result.Header k = (atBranch c).w.header k) →
      carriesCORS (CORS (downstream h) c r).w.Result.Header (specOrigin c.env)) := by
  have hcar : carriesCORS (atBranch c).w.header (specOrigin c.env) :=
    carriesCORS_withCORSHeaders c.w (specOrigin c.env)
  refine ⟨fun next => CORS_run next c r, hcar, ?_, ?_, ?_⟩
  · intro c2 k hk
    simp only [corsHeaderNames, List.tail_cons, List.mem_cons, List.mem_singleton,
      List.not_mem_nil, or_false] at hk
    rcases hk with hk | hk | hk <;> subst hk <;>
      simp [atBranch, withCORSHeaders, Header.Set]
  · intro hm
    rw [CORS_downstream_w, if_pos hm, Result_preflight _ _ hw]
    exact hcar
  · intro hm hkeep
    rw [CORS_downstream_w, if_neg hm]
    have e1 := hkeep "Access-Control-Allow-Origin" (by simp [corsHeaderNames])
    have e2 := hkeep "Access-Control-Allow-Methods" (by simp [corsHeaderNames])
    have e3 := hkeep "Access-Control-Allow-Headers" (by simp [corsHeaderNames])
    have e4 := hkeep "Access-Control-Allow-Credentials" (by simp [corsHeaderNames])
    exact ⟨e1.trans hcar.1, e2.trans hcar.2.1, e3.trans hcar.2.2.1, e4.trans hcar.2.2.2⟩

/-- C3 (amended) at `GET /items` with `CORS_ORIGIN=https://example.com`. -/
theorem CORS_headers_carried_witness :
    (worldWith "https://example.com").w.wroteHeader = false ∧
    getItems.Method ≠ "OPTIONS" ∧
    carriesCORS
      (CORS (downstream writeOk) (worldWith "https://example.com") getItems).w.Result.Header
      "https://example.com" :=
  ⟨rfl, by decide,
    (CORS_headers_carried writeOk (worldWith "https://example.com") getItems rfl).2.2.2.2
      (by decide) (by intro k _; rfl)⟩

/-- C4: when `CORS_ORIGIN` is unset or empty, for every request the value the middleware
writes to `Access-Control-Allow-Origin` is exactly `http://localhost:8081`; in particular
an "OPTIONS" request on an untouched response yields status 204, that header value and an
empty body. -/
theorem CORS_origin_default (h : Env → ResponseWriter → Request → Env × ResponseWriter)
    (c : World) (r : Request)
    (he : c.env "CORS_ORIGIN" = none ∨ c.env "CORS_ORIGIN" = some "") :
    (CORS (downstream h) c r).trace
      = c.trace ++ corsEvents "http://localhost:8081" ++ [outcome r] ∧
    (CORS (downstream h) c r).w
      = (if r.Method = "OPTIONS"
         then (withCORSHeaders c.w "http://localhost:8081").WriteHeader 204
         else (h c.env (withCORSHeaders c.w "http://localhost:8081") r).2) ∧
    (withCORSHeaders c.w "http://localhost:8081").header "Access-Control-Allow-Origin"
      = some ["http://localhost:8081"] ∧
    (r.Method = "OPTIONS" → c.w.wroteHeader = false → c.w.body = "" →
      (CORS (downstream h) c r).w.Result.StatusCode = 204 ∧
      (CORS (downstream h) c r).w.Result.Header "Access-Control-Allow-Origin"
        = some ["http://localhost:8081"] ∧
      (CORS (downstream h) c r).w.Result.Body = "") := by
  have ho := specOrigin_of_unset c.env he
  have ht := CORS_downstream_trace h c r
  have hwr := CORS_downstream_w h c r
  rw [ho] at ht hwr
  refine ⟨ht, hwr, (carriesCORS_withCORSHeaders c.w _).1, ?_⟩
  intro hm hw hb
  rw [hwr, if_pos hm, Result_preflight _ _ hw]
  exact ⟨rfl, (carriesCORS_withCORSHeaders c.w _).1, hb⟩

/-- C4 at `OPTIONS /anything` with `CORS_ORIGIN` unset. -/
theorem CORS_origin_default_witness :
    (worldUnset.env "CORS_ORIGIN" = none ∨ worldUnset.env "CORS_ORIGIN" = some "") ∧
    (CORS (downstream writeOk) worldUnset optionsAnything).w.Result.StatusCode = 204 ∧
    (CORS (downstream writeOk) worldUnset optionsAnything).w.Result.Header
      "Access-Control-Allow-Origin" = some ["http://localhost:8081"] ∧
    (CORS (downstream writeOk) worldUnset optionsAnything).w.Result.Body = "" :=
  ⟨Or.inl rfl,
    (CORS_origin_default writeOk worldUnset optionsAnything (Or.inl rfl)).2.2.2 rfl rfl rfl⟩

/-- C5: for every non-empty string S, when `CORS_ORIGIN` is S the value the middleware
writes to `Access-Control-Allow-Origin` is S itself, unchanged. -/
theorem CORS_origin_verbatim (h : Env → ResponseWriter → Request → Env × ResponseWriter)
    (c : World) (r : Request) (S : String) (hS : S ≠ "")
    (he : c.env "CORS_ORIGIN" = some S) :
    (CORS (downstream h) c r).trace = c.trace ++ corsEvents S ++ [outcome r] ∧
    (CORS (downstream h) c r).w
      = (if r.Method = "OPTIONS" then (withCORSHeaders c.w S).WriteHeader 204
         else (h c.env (withCORSHeaders c.w S) r).2) ∧
    (withCORSHeaders c.w S).header "Access-Control-Allow-Origin" = some [S] ∧
    (r.Method = "OPTIONS" → c.w.wroteHeader = false →
      (CORS (downstream h) c r).w.Result.Header "Access-Control-Allow-Origin"
        = some [S]) := by
  have ho := specOrigin_of_set c.env S hS he
  have ht := CORS_downstream_trace h c r
  have hwr := CORS_downstream_w h c r
  rw [ho] at ht hwr
  refine ⟨ht, hwr, (carriesCORS_withCORSHeaders c.w S).1, ?_⟩
  intro hm hw
  rw [hwr, if_pos hm, Result_preflight _ _ hw]
  exact (carriesCORS_withCORSHeaders c.w S).1

/-- C5 at three values that are no origin: blanks around text, a star, a comma list. -/
theorem CORS_origin_verbatim_witness :
    (" not a url " ≠ "" ∧ (worldWith " not a url ").env "CORS_ORIGIN" = some " not a url " ∧
      (CORS (downstream writeOk) (worldWith " not a url ") optionsAnything).w.Result.Header
        "Access-Control-Allow-Origin" = some [" not a url "]) ∧
    ("*" ≠ "" ∧ (worldWith "*").env "CORS_ORIGIN" = some "*" ∧
      (CORS (downstream writeOk) (worldWith "*") optionsAnything).w.Result.Header
        "Access-Control-Allow-Origin" = some ["*"]) ∧
    ("https://a.example, https://b.example" ≠ "" ∧
      (worldWith "https://a.example, https://b.example").env "CORS_ORIGIN"
        = some "https://a.example, https://b.example" ∧
      (CORS (downstream writeOk) (worldWith "https://a.example, https://b.example")
        optionsAnything).w.Result.Header "Access-Control-Allow-Origin"
        = some ["https://a.example, https://b.example"]) :=
  ⟨⟨by decide, rfl,
      (CORS_origin_verbatim writeOk (worldWith " not a url ") optionsAnything " not a url "
        (by decide) rfl).2.2.2 rfl rfl⟩,
   ⟨by decide, rfl,
      (CORS_origin_verbatim writeOk (worldWith "*") optionsAnything "*"
        (by decide) rfl).2.2.2 rfl rfl⟩,
   ⟨by decide, rfl,
      (CORS_origin_verbatim writeOk (worldWith "https://a.example, https://b.example")
        optionsAnything "https://a.example, https://b.example" (by decide) rfl).2.2.2
        rfl rfl⟩⟩

/-- C6: for every request and every initial response state, whatever values the four
headers held before, the middleware reaches its method test in a world `p` in which each
of the four headers holds exactly one value, the specified one, and in which status,
frozen headers and body are as they were initially: up to the moment it writes 204 or
invokes the downstream handler it has performed one environment read and four header
writes, and no write of a status. -/
theorem CORS_headers_before_branch (c : World) (r : Request) :
    ∃ p : World,
      (∀ next : Handler, CORS next c r =
        if r.Method = "OPTIONS" then World.WriteHeader p 204 else next p r) ∧
      carriesCORS p.w.header (specOrigin c.env) ∧
      p.w.wroteHeader = c.w.wroteHeader ∧
      p.w.status = c.w.status ∧
      p.w.snapHeader = c.w.snapHeader ∧
      p.w.body = c.w.body ∧
      p.env = c.env ∧
      p.trace = c.trace ++ corsEvents (specOrigin c.env) ∧
      ∀ code, Event.writeHeader code ∉ corsEvents (specOrigin c.env) := by
  refine ⟨atBranch c, fun next => CORS_run next c r,
    carriesCORS_withCORSHeaders c.w (specOrigin c.env), rfl, rfl, rfl, rfl, rfl, rfl, ?_⟩
  intro code
  simp [corsEvents]

/-- C7: the preflight test compares the method with "OPTIONS" exactly: for every request
whose method differs from "OPTIONS" in any way, the handler built by `CORS` performs no
`WriteHeader` of its own and hands the request to the downstream handler exactly once. -/
theorem CORS_method_test_exact (h : Env → ResponseWriter → Request → Env × ResponseWriter)
    (c : World) (r : Request) (hm : r.Method ≠ "OPTIONS") :
    CORS (downstream h) c r = downstream h (atBranch c) r ∧
    (CORS (downstream h) c r).trace
      = c.trace ++ (corsEvents (specOrigin c.env) ++ [Event.serve r]) ∧
    invocations (CORS (downstream h) c r).trace = invocations c.trace + 1 ∧
    (∀ code, Event.writeHeader code ∉ corsEvents (specOrigin c.env) ++ [Event.serve r]) ∧
    (atBranch c).w.wroteHeader = c.w.wroteHeader ∧
    (atBranch c).w.status = c.w.status := by
  have ht := CORS_downstream_trace h c r
  simp only [outcome, if_neg hm, List.append_assoc] at ht
  refine ⟨?_, ht, ?_, ?_, rfl, rfl⟩
  · rw [CORS_run, if_neg hm]
  · rw [ht]
    simp [invocations_append, invocations_corsEvents, invocations]
  · intro code
    simp [corsEvents]

/-- C7 at four methods that are close to, but not, "OPTIONS". -/
theorem CORS_method_test_exact_witness :
    ("options" ≠ "OPTIONS" ∧
      invocations (CORS (downstream writeOk) worldUnset
        { getItems with Method := "options" }).trace = 1) ∧
    ("Options" ≠ "OPTIONS" ∧
      invocations (CORS (downstream writeOk) worldUnset
        { getItems with Method := "Options" }).trace = 1) ∧
    ("OPTIONS " ≠ "OPTIONS" ∧
      invocations (CORS (downstream writeOk) worldUnset
        { getItems with Method := "OPTIONS " }).trace = 1) ∧
    ("" ≠ "OPTIONS" ∧
      invocations (CORS (downstream writeOk) worldUnset
        { getItems with Method := "" }).trace = 1) :=
  ⟨⟨by decide, (CORS_method_test_exact writeOk worldUnset
      { getItems with Method := "options" } (by decide)).2.2.1⟩,
   ⟨by decide, (CORS_method_test_exact writeOk worldUnset
      { getItems with Method := "Options" } (by decide)).2.2.1⟩,
   ⟨by decide, (CORS_method_test_exact writeOk worldUnset
      { getItems with Method := "OPTIONS " } (by decide)).2.2.1⟩,
   ⟨by decide, (CORS_method_test_exact writeOk worldUnset
      { getItems with Method := "" } (by decide)).2.2.1⟩⟩

/-- C8: the allowed origin is resolved when a request is served, not when the handler is
built: one and the same wrapped handler `CORS (downstream h)`, run in a world whose
environment is `cA.env` and then in a world whose environment is `cB.env`, writes the
origin resolved from `cA.env` in the first run and the origin resolved from `cB.env` in the
second; and in each run the middleware reads `CORS_ORIGIN` exactly once. -/
theorem CORS_origin_read_per_request
    (h : Env → ResponseWriter → Request → Env × ResponseWriter)
    (cA cB : World) (r1 r2 : Request) :
    ((CORS (downstream h) cA r1).trace
        = cA.trace ++ (corsEvents (specOrigin cA.env) ++ [outcome r1]) ∧
      (CORS (downstream h) cA r1).w
        = (if r1.Method = "OPTIONS"
           then (withCORSHeaders cA.w (specOrigin cA.env)).WriteHeader 204
           else (h cA.env (withCORSHeaders cA.w (specOrigin cA.env)) r1).2) ∧
      (withCORSHeaders cA.w (specOrigin cA.env)).header "Access-Control-Allow-Origin"
        = some [specOrigin cA.env] ∧
      envReads "CORS_ORIGIN" (corsEvents (specOrigin cA.env) ++ [outcome r1]) = 1) ∧
    ((CORS (downstream h) cB r2).trace
        = cB.trace ++ (corsEvents (specOrigin cB.env) ++ [outcome r2]) ∧
      (CORS (downstream h) cB r2).w
        = (if r2.Method = "OPTIONS"
           then (withCORSHeaders cB.w (specOrigin cB.env)).WriteHeader 204
           else (h cB.env (withCORSHeaders cB.w (specOrigin cB.env)) r2).2) ∧
      (withCORSHeaders cB.w (specOrigin cB.env)).header "Access-Control-Allow-Origin"
        = some [specOrigin cB.env] ∧
      envReads "CORS_ORIGIN" (corsEvents (specOrigin cB.env) ++ [outcome r2]) = 1) := by
  have key : ∀ (c : World) (r : Request),
      (CORS (downstream h) c r).trace
        = c.trace ++ (corsEvents (specOrigin c.env) ++ [outcome r]) ∧
      (CORS (downstream h) c r).w
        = (if r.Method = "OPTIONS"
           then (withCORSHeaders c.w (specOrigin c.env)).WriteHeader 204
           else (h c.env (withCORSHeaders c.w (specOrigin c.env)) r).2) ∧
      (withCORSHeaders c.w (specOrigin c.env)).header "Access-Control-Allow-Origin"
        = some [specOrigin c.env] ∧
      envReads "CORS_ORIGIN" (corsEvents (specOrigin c.env) ++ [outcome r]) = 1 := by
    intro c r
    refine ⟨?_, CORS_downstream_w h c r, (carriesCORS_withCORSHeaders c.w _).1, ?_⟩
    · rw [CORS_downstream_trace, List.append_assoc]
    · rw [envReads_append, envReads_corsEvents]
      by_cases hm : r.Method = "OPTIONS" <;> simp [outcome, hm, envReads]
  exact ⟨key cA r1, key cB r2⟩

/-- C9: for any two requests with the same method, served under the same value of
`CORS_ORIGIN`, the middleware performs the same read and the same four header writes with
the same values, leaves the four headers with the same values, and takes the same
decision, to write 204 itself or to hand over; the requests' headers, URLs and bodies
play no part. -/
theorem CORS_ignores_request_details
    (h : Env → ResponseWriter → Request → Env × ResponseWriter)
    (c1 c2 : World) (r1 r2 : Request) (hm : r1.Method = r2.Method)
    (he : c1.env "CORS_ORIGIN" = c2.env "CORS_ORIGIN") :
    ∃ (o : String) (short : Bool),
      (CORS (downstream h) c1 r1).trace
        = c1.trace ++ corsEvents o
            ++ [if short = true then Event.writeHeader 204 else Event.serve r1] ∧
      (CORS (downstream h) c2 r2).trace
        = c2.trace ++ corsEvents o
            ++ [if short = true then Event.writeHeader 204 else Event.serve r2] ∧
      (CORS (downstream h) c1 r1).w
        = (if short = true then (withCORSHeaders c1.w o).WriteHeader 204
           else (h c1.env (withCORSHeaders c1.w o) r1).2) ∧
      (CORS (downstream h) c2 r2).w
        = (if short = true then (withCORSHeaders c2.w o).WriteHeader 204
           else (h c2.env (withCORSHeaders c2.w o) r2).2) ∧
      carriesCORS (withCORSHeaders c1.w o).header o ∧
      carriesCORS (withCORSHeaders c2.w o).header o := by
  have ho : specOrigin c2.env = specOrigin c1.env := by
    simp only [specOrigin, he]
  refine ⟨specOrigin c1.env, decide (r1.Method = "OPTIONS"), ?_, ?_, ?_, ?_,
    carriesCORS_withCORSHeaders _ _, carriesCORS_withCORSHeaders _ _⟩
  · rw [CORS_downstream_trace]
    simp [outcome]
  · rw [CORS_downstream_trace, ho]
    simp [outcome, hm]
  · rw [CORS_downstream_w]
    simp
  · rw [CORS_downstream_w, ho]
    simp [hm]

/-- C9 at two `POST` requests that differ in URL, `Origin` header and body. -/
theorem CORS_ignores_request_details_witness :
    (crossOrigin "POST" "/a" "https://evil.example" "x").Method
      = (crossOrigin "POST" "/b" "https://other.example" "yy").Method ∧
    (worldWith "https://example.com").env "CORS_ORIGIN"
      = (worldWith "https://example.com").env "CORS_ORIGIN" ∧
    ∃ (o : String) (short : Bool),
      (CORS (downstream writeOk) (worldWith "https://example.com")
          (crossOrigin "POST" "/a" "https://evil.example" "x")).trace
        = (worldWith "https://example.com").trace ++ corsEvents o
            ++ [if short = true then Event.writeHeader 204
                else Event.serve (crossOrigin "POST" "/a" "https://evil.example" "x")] ∧
      (CORS (downstream writeOk) (worldWith "https://example.com")
          (crossOrigin "POST" "/b" "https://other.example" "yy")).trace
        = (worldWith "https://example.com").trace ++ corsEvents o
            ++ [if short = true then Event.writeHeader 204
                else Event.serve (crossOrigin "POST" "/b" "https://other.example" "yy")] :=
  ⟨rfl, rfl,
    match CORS_ignores_request_details writeOk (worldWith "https://example.com")
        (worldWith "https://example.com")
        (crossOrigin "POST" "/a" "https://evil.example" "x")
        (crossOrigin "POST" "/b" "https://other.example" "yy") rfl rfl with
    | ⟨o, short, h1, h2, _⟩ => ⟨o, short, h1, h2⟩⟩

/-- C10: wrapping twice changes nothing: for every downstream handler, every environment,
every request and every initial response state, `CORS (CORS H)` ends with the same
response writer (status, headers, body, hence the same response), the same environment
and the same number of invocations of H as `CORS H`. -/
theorem CORS_idempotent (h : Env → ResponseWriter → Request → Env × ResponseWriter)
    (c : World) (r : Request) :
    (CORS (CORS (downstream h)) c r).w = (CORS (downstream h) c r).w ∧
    (CORS (CORS (downstream h)) c r).w.Result = (CORS (downstream h) c r).w.Result ∧
    (CORS (CORS (downstream h)) c r).env = (CORS (downstream h) c r).env ∧
    invocations (CORS (CORS (downstream h)) c r).trace
      = invocations (CORS (downstream h) c r).trace := by
  have hw : (CORS (CORS (downstream h)) c r).w = (CORS (downstream h) c r).w := by
    rw [CORS_run (CORS (downstream h)), CORS_run (downstream h) c]
    by_cases hm : r.Method = "OPTIONS"
    · simp [hm]
    · rw [if_neg hm, if_neg hm, CORS_run, if_neg hm]
      simp [downstream, atBranch, withCORSHeaders_idem]
  refine ⟨hw, by rw [hw], ?_, ?_⟩
  · rw [CORS_run (CORS (downstream h)), CORS_run (downstream h) c]
    by_cases hm : r.Method = "OPTIONS"
    · simp [hm]
    · rw [if_neg hm, if_neg hm, CORS_run, if_neg hm]
      simp [downstream, atBranch, withCORSHeaders_idem]
  · rw [CORS_run (CORS (downstream h)), CORS_run (downstream h) c]
    by_cases hm : r.Method = "OPTIONS"
    · simp [hm]
    · rw [if_neg hm, if_neg hm, CORS_run, if_neg hm]
      simp [downstream, atBranch, invocations_append, invocations_corsEvents, invocations]

end Lembrancas
